import Mathlib

/-!
Verification of the billing-engine repository (github.com/segyhp/billing-engine).

The development shallowly embeds the Go domain logic:
* `shopspring/decimal` values are scaled integers: a `Dec` with integer
  `value` and scale `s` denotes `value / 10^s`, exactly shopspring's
  `value × 10^exp` representation with `exp = -s`.  Arithmetic is exact;
  `Div` rounds the exact quotient to `DivisionPrecision = 16` decimal places
  half away from zero, and `Round(p)` rounds to `p` places half away from
  zero, mirroring the library.
* `time.Time` values are modelled as integers counting days: the only
  operations the code performs on times are `AddDate(0, 0, n)` (adding days)
  and order comparisons at day granularity.
* fallible repository calls are modelled with an explicit result type.
-/

namespace BillingEngine

/-- `10^k` as an integer. -/
def pow10 (k : ℕ) : ℤ := (10 : ℤ) ^ k

/-- Round the quotient `n / m` of two naturals (with `m > 0`) to the nearest
natural, ties rounded up — which is "away from zero" on magnitudes. -/
def roundHalfUpMag (n m : ℕ) : ℕ := (2 * n + m) / (2 * m)

/-- Round the rational `num / den` (`den ≠ 0`) to the nearest integer, ties
away from zero: the rounding mode of `shopspring/decimal`'s `Round` and
`DivRound`.  Computed on magnitudes, then given the sign of the quotient. -/
def roundHalfAway (num den : ℤ) : ℤ :=
  let q : ℤ := roundHalfUpMag num.natAbs den.natAbs
  if (0 ≤ num) = (0 ≤ den) then q else -q

/-- A `shopspring/decimal` value: denotes `value / 10^scale`. -/
structure Dec where
  value : ℤ
  scale : ℕ
deriving DecidableEq, Repr

/-- `decimal.NewFromInt`. -/
def decOfInt (n : ℤ) : Dec := ⟨n, 0⟩

/-- `decimal.Zero`. -/
def decZero : Dec := decOfInt 0

/-- `shopspring/decimal`'s package-level `DivisionPrecision` (default 16). -/
def divisionPrecision : ℕ := 16

namespace Dec

/-- `a.Add(b)`: rescale both operands to the larger scale, add exactly. -/
def add (a b : Dec) : Dec :=
  let s := max a.scale b.scale
  ⟨a.value * pow10 (s - a.scale) + b.value * pow10 (s - b.scale), s⟩

/-- `a.Sub(b)`. -/
def sub (a b : Dec) : Dec :=
  let s := max a.scale b.scale
  ⟨a.value * pow10 (s - a.scale) - b.value * pow10 (s - b.scale), s⟩

/-- `a.Mul(b)`: exact product, scales add. -/
def mul (a b : Dec) : Dec := ⟨a.value * b.value, a.scale + b.scale⟩

/-- `a.Div(b)`: shopspring's `Div` delegates to
`DivRound(b, DivisionPrecision)` — the exact quotient
`(a.value/10^a.scale) / (b.value/10^b.scale)` rounded to 16 decimal places
half away from zero, result carried at scale 16. -/
def div (a b : Dec) : Dec :=
  ⟨roundHalfAway (a.value * pow10 (b.scale + divisionPrecision))
                 (b.value * pow10 a.scale),
   divisionPrecision⟩

/-- `d.Round(places)`: result carried at scale `places`; pads with zeros when
the value has fewer fractional digits, otherwise rounds half away from
zero. -/
def round (places : ℕ) (d : Dec) : Dec :=
  if d.scale ≤ places then ⟨d.value * pow10 (places - d.scale), places⟩
  else ⟨roundHalfAway d.value (pow10 (d.scale - places)), places⟩

/-- `a.Equal(b)`: value equality across scales (cross-multiplied). -/
def Equal (a b : Dec) : Bool :=
  a.value * pow10 b.scale == b.value * pow10 a.scale

/-- `a.LessThanOrEqual(b)`. -/
def le (a b : Dec) : Bool :=
  decide (a.value * pow10 b.scale ≤ b.value * pow10 a.scale)

/-- `a.LessThan(b)`. -/
def lt (a b : Dec) : Bool :=
  decide (a.value * pow10 b.scale < b.value * pow10 a.scale)

end Dec

/-! ## Domain model (`internal/domain`) -/

/-- Constant `domain.LoanStatusActive` (unnamed domain source, loan constants). -/
def LoanStatusActive : String := "active"

/-- Constant `domain.LoanStatusClosed`. -/
def LoanStatusClosed : String := "closed"

/-- Constant `domain.LoanStatusDefault`. -/
def LoanStatusDefault : String := "default"

/-- Constant `domain.ScheduleStatusPending`. -/
def ScheduleStatusPending : String := "pending"

/-- Constant `domain.ScheduleStatusPaid`. -/
def ScheduleStatusPaid : String := "paid"

/-- Constant `domain.ScheduleStatusOverdue`. -/
def ScheduleStatusOverdue : String := "overdue"

/-- `domain.Loan` (unnamed domain source): the fields the billing logic reads
and writes.  `createdAt` is a day count; the Go zero `time.Time` is day 0. -/
structure Loan where
  loanID : String
  amount : Dec
  interestRate : Dec
  durationWeeks : ℤ
  weeklyPayment : Dec
  status : String
  createdAt : ℤ
deriving DecidableEq, Repr

/-- `domain.LoanSchedule`: one installment of a loan's schedule. -/
structure LoanSchedule where
  loanID : String
  weekNumber : ℤ
  dueAmount : Dec
  dueDate : ℤ
  status : String
deriving DecidableEq, Repr

/-- `domain.Payment`: one payment record. -/
structure Payment where
  loanID : String
  amount : Dec
  weekNumber : ℤ
deriving DecidableEq, Repr

/-- Business / persistence error kinds (`pkg/errors`).  `dbError` stands for a
raw storage failure propagated unwrapped; `dbUniqueViolation` is the raw
driver error produced by the `loans.loan_id UNIQUE` constraint of
`scripts/init.sql`. -/
inductive BErr where
  | alreadyExists
  | alreadyClosed
  | invalidAmount
  | noOutstandingBalance
  | dbError
  | dbUniqueViolation
deriving DecidableEq, Repr

/-- Result of a fallible repository or service call. -/
inductive Res (α : Type) where
  | ok : α → Res α
  | err : BErr → Res α
deriving DecidableEq, Repr

/-! ## `BillingService.calculateWeeklyPayment` and `utils.CalculateWeeklyPayment` -/

/-- `BillingService.calculateWeeklyPayment` (billing_service.go:165-173):
principal, rate and duration are hard-coded (`NewFromInt(5000000)`,
`NewFromFloat(0.10)`, `NewFromInt(50)` — "from config") and the quotient is
NOT rounded to 2 places.  `NewFromFloat(0.10)` yields the shortest decimal
representation `0.1`. -/
def calculateWeeklyPayment : Dec :=
  let principal := decOfInt 5000000
  let annualRate : Dec := ⟨1, 1⟩
  let weeks := decOfInt 50
  let interest := principal.mul annualRate
  let totalAmount := principal.add interest
  totalAmount.div weeks

/-- `utils.CalculateWeeklyPayment(principal, annualRate, weeks)` (unnamed
utils source): `((principal.Add(principal.Mul(annualRate))).Div(weeks)).Round(2)`. -/
def CalculateWeeklyPayment (principal annualRate : Dec) (weeks : ℤ) : Dec :=
  let totalInterest := principal.mul annualRate
  let totalAmount := principal.add totalInterest
  let weeklyPayment := totalAmount.div (decOfInt weeks)
  weeklyPayment.round 2

/-- The weekly-payment formula in the spec's words (§4.1, P2):
`round2((P + P*r) / N)` — the EXACT quotient rounded once to 2 decimal
places (no intermediate 16-place division rounding).  Written from the spec
for comparison with the source embedding: with `A = P + P*r`, the exact
quotient is `A.value / (N * 10^A.scale)`, and rounding it to 2 places half
away from zero gives value `roundHalfAway (A.value * 100) (N * 10^A.scale)`
at scale 2. -/
def specWeeklyPayment (principal annualRate : Dec) (weeks : ℤ) : Dec :=
  let totalAmount := principal.add (principal.mul annualRate)
  ⟨roundHalfAway (totalAmount.value * 100) (weeks * pow10 totalAmount.scale), 2⟩

/-! ## `BillingService.CreateLoan` (billing_service.go:36-77), pure part -/

/-- The loan entity and schedule built by `BillingService.CreateLoan`:
amount/rate/duration hard-coded, loan status the literal `"ACTIVE"`, each of
the 50 installments due at `loan.CreatedAt.AddDate(0,0,(i+1)*7)` with status
the literal `"PENDING"`.  `CreatedAt` is never assigned, so it is Go's zero
time, day 0. -/
def createLoan (loanID : String) : Loan × List LoanSchedule :=
  let loan : Loan :=
    { loanID := loanID
      amount := decOfInt 5000000
      interestRate := ⟨1, 1⟩
      durationWeeks := 50
      weeklyPayment := calculateWeeklyPayment
      status := "ACTIVE"
      createdAt := 0 }
  let schedule := (List.range 50).map (fun i =>
    { loanID := loanID
      weekNumber := (i : ℤ) + 1
      dueAmount := loan.weeklyPayment
      dueDate := loan.createdAt + ((i : ℤ) + 1) * 7
      status := "PENDING" : LoanSchedule })
  (loan, schedule)

/-! ## Repository layer -/

/-- Read-side repository contract consumed by the service: the results the
loan store and payment store return for a given loan ID.  (`Res.err` covers
both "row not found" — `sql.ErrNoRows` — and any other storage failure: the
service treats every repository error alike.) -/
structure Store where
  getLoan : String → Res Loan
  getSchedule : String → Res (List LoanSchedule)
  getPayments : String → Res (List Payment)

/-- Persisted loan-store state: the `loans` and `loan_schedule` tables. -/
structure LoanDB where
  loans : List Loan
  schedules : List LoanSchedule
deriving DecidableEq, Repr

/-- `loanRepository.Create` (loan_repository.go:20-39): a single SQL INSERT
into `loans`.  `createOk` is the environment oracle for storage failures;
`scripts/init.sql` declares `loan_id UNIQUE`, so inserting a duplicate
`loan_id` fails with the driver's unique-violation error and persists
nothing. -/
def loanRepoCreate (createOk : Bool) (db : LoanDB) (loan : Loan) :
    LoanDB × Option BErr :=
  if ¬ createOk then (db, some .dbError)
  else if db.loans.any (fun l => l.loanID == loan.loanID) then
    (db, some .dbUniqueViolation)
  else ({ db with loans := db.loans ++ [loan] }, none)

/-- The INSERT loop of `loanRepository.CreateSchedule` run inside the
transaction: `oracle n` tells whether the `n`-th INSERT succeeds (an
environment choice); `none` means some INSERT failed. -/
def txInsertAll (oracle : ℕ → Bool) : List LoanSchedule → ℕ → Option (List LoanSchedule)
  | [], _ => some []
  | s :: rest, n =>
    if oracle n then (txInsertAll oracle rest (n + 1)).map (s :: ·)
    else none

/-- `loanRepository.CreateSchedule` (loan_repository.go:77-105): `BeginTxx`,
a loop of INSERTs into `loan_schedule` inside the transaction, `Commit`,
with `defer tx.Rollback()`.  Writes are buffered in the transaction and
reach the database only at a successful commit; on any failure the deferred
rollback discards them and the state is unchanged.  Returns the resulting
state and the error, if any. -/
def CreateSchedule (beginOk : Bool) (oracle : ℕ → Bool) (commitOk : Bool)
    (db : LoanDB) (schedules : List LoanSchedule) : LoanDB × Option BErr :=
  if ¬ beginOk then (db, some .dbError)
  else
    match txInsertAll oracle schedules 0 with
    | none => (db, some .dbError)
    | some rows =>
      if commitOk then ({ db with schedules := db.schedules ++ rows }, none)
      else (db, some .dbError)

/-- `BillingService.CreateLoan` (billing_service.go:36-77) with its two
persistence calls: build the loan and schedule, `loanRepo.Create`, then
`loanRepo.CreateSchedule`; each error is returned as-is.  Note: the source
performs NO existence lookup before inserting. -/
def CreateLoanSvc (createOk beginOk : Bool) (oracle : ℕ → Bool) (commitOk : Bool)
    (db : LoanDB) (loanID : String) : LoanDB × Res (Loan × List LoanSchedule) :=
  let (loan, schedule) := createLoan loanID
  match loanRepoCreate createOk db loan with
  | (db1, some e) => (db1, .err e)
  | (db1, none) =>
    match CreateSchedule beginOk oracle commitOk db1 schedule with
    | (db2, some e) => (db2, .err e)
    | (db2, none) => (db2, .ok (loan, schedule))

/-- The WHERE clause of `loanRepository.GetOverdueSchedules`
(loan_repository.go:135-150): `loan_id = $1 AND status = 'pending' AND
due_date < $2`. -/
def overdueWhere (loanID : String) (currentDate : ℤ) (s : LoanSchedule) : Bool :=
  (s.loanID == loanID) && (s.status == "pending") && (s.dueDate < currentDate)

/-- `loanRepository.GetOverdueSchedules`: rows matching the WHERE clause,
ordered by week number. -/
def GetOverdueSchedules (db : LoanDB) (loanID : String) (currentDate : ℤ) :
    List LoanSchedule :=
  List.insertionSort (fun a b => a.weekNumber ≤ b.weekNumber)
    (db.schedules.filter (overdueWhere loanID currentDate))

/-- Persisted payment-store state: the `payments` table. -/
structure PayDB where
  rows : List Payment
deriving DecidableEq, Repr

/-- `paymentRepository.Create` (payment_repository.go:19-22): the body is
`//todo: use transaction; return nil` — it persists nothing and reports no
error. -/
def paymentRepoCreate (db : PayDB) (_p : Payment) : PayDB × Option BErr :=
  (db, none)

/-- `paymentRepository.GetByLoanID` (payment_repository.go:24-27): the body
is `//todo: implement; return nil, nil` — the nil slice (empty history) and
no error, for every loan ID. -/
def paymentRepoGetByLoanID (_db : PayDB) (_loanID : String) : Res (List Payment) :=
  .ok []

/-! ## `BillingService.GetOutstanding` (billing_service.go:80-120) -/

/-- `BillingService.GetOutstanding`: fetches the loan (propagating any
error), then OVERWRITES it with a freshly built hard-coded loan entity;
fetches the payment history (propagating any error), then OVERWRITES it
with a hard-coded list of two payments of 110000; finally returns
`loan.Amount.Sub(totalPayments)` — the principal alone, minus 220000.
(On error the Go function returns `decimal.Zero` with the error; `Res.err`
carries the error.) -/
def GetOutstanding (s : Store) (loanID : String) : Res Dec :=
  match s.getLoan loanID with
  | .err e => .err e
  | .ok _fetchedLoan =>
    let loan : Loan :=
      { loanID := loanID
        amount := decOfInt 5000000
        interestRate := ⟨1, 1⟩
        durationWeeks := 50
        weeklyPayment := calculateWeeklyPayment
        status := "ACTIVE"
        createdAt := 0 }
    match s.getPayments loanID with
    | .err e => .err e
    | .ok _fetchedPayments =>
      let payments : List Payment :=
        [⟨loanID, decOfInt 110000, 0⟩, ⟨loanID, decOfInt 110000, 0⟩]
      let totalPayments := payments.foldl (fun acc p => acc.add p.amount) decZero
      .ok (loan.amount.sub totalPayments)

/-! ## Delinquency detection (spec §4.3)

`BillingService.IsDelinquent` (billing_service.go:124-134) is an
unimplemented stub in the source tree (its body is
`panic("TODO: Implement IsDelinquent business logic")`); only its
declaration, callers and unit tests are present.  The operation is therefore
modelled from the spec. -/

/-- The delinquency threshold: "default 2", a fixed system constant. -/
def delinquencyThreshold : ℕ := 2

/-- Modelled from the spec: the walk of §4.3 over the installments sorted
ascending by due date, carrying `consecutiveMissed`.  Per the spec's
tie-break rule, only strictly past-due installments are evaluated: an
installment due today or later halts the walk before being counted (this is
also the behaviour the repository's unit tests assert).  A `pending`
installment increments the counter, reaching the threshold returns `true`
immediately, a `paid` installment resets the counter to 0, and any other
status (`overdue`) is treated identically to `pending`. -/
def delinquencyWalk (today : ℤ) (threshold : ℕ) :
    List LoanSchedule → ℕ → Bool
  | [], _ => false
  | inst :: rest, consecutiveMissed =>
    if today ≤ inst.dueDate then false
    else if inst.status = ScheduleStatusPending then
      let c := consecutiveMissed + 1
      if threshold ≤ c then true else delinquencyWalk today threshold rest c
    else if inst.status = ScheduleStatusPaid then
      delinquencyWalk today threshold rest 0
    else
      let c := consecutiveMissed + 1
      if threshold ≤ c then true else delinquencyWalk today threshold rest c

/-- Modelled from the spec: `isDelinquent(loanID)` (§4.3).  The loan must
exist (lookup errors propagate) and must be `active` (otherwise
`AlreadyClosed`); fetch the loan's installments, sort them ascending by due
date, and run the walk with the default threshold 2. -/
def IsDelinquent (s : Store) (today : ℤ) (loanID : String) : Res Bool :=
  match s.getLoan loanID with
  | .err e => .err e
  | .ok loan =>
    if loan.status = LoanStatusActive then
      match s.getSchedule loanID with
      | .err e => .err e
      | .ok schedules =>
        .ok (delinquencyWalk today delinquencyThreshold
              (List.insertionSort (fun a b => a.dueDate ≤ b.dueDate) schedules) 0)
    else .err .alreadyClosed

/-! ## Payment processing (spec §4.4)

`BillingService.MakePayment` (billing_service.go:138-150) is an
unimplemented stub in the source tree (its body is
`panic("TODO: Implement MakePayment business logic")`); only its
declaration, callers and unit tests are present.  The operation is therefore
modelled from the spec. -/

/-- The state of one loan: the loan row, its installments, and its payment
history. -/
structure PaymentState where
  loan : Loan
  schedule : List LoanSchedule
  payments : List Payment
deriving DecidableEq, Repr

/-- Modelled from the spec: "find first (lowest week number) with status
`pending`" (§4.4 step 4). -/
def earliestPendingInstallment : List LoanSchedule → Option LoanSchedule
  | [] => none
  | inst :: rest =>
    if inst.status = ScheduleStatusPending then
      match earliestPendingInstallment rest with
      | none => some inst
      | some best =>
        if inst.weekNumber ≤ best.weekNumber then some inst else some best
    else earliestPendingInstallment rest

/-- Modelled from the spec: `makePayment(loanID, amount)` (§4.4).
Validation in order: non-positive amount → `InvalidAmount`; loan must be
`active` → else `AlreadyClosed`; an installment with status `pending` must
exist → else `NoOutstandingBalance`; the amount must equal the loan's
weekly payment exactly → else `InvalidAmount`.  On success: append a
payment record carrying the matched week number, mark that week's
installment `paid`, and if every installment other than the one just paid
is not `pending` (equivalently: the updated schedule has no `pending`
installment left), set the loan's status to `closed`.  The state is the
single loan's persisted data, so the loan lookup itself always succeeds. -/
def MakePayment (st : PaymentState) (amount : Dec) : Res (Payment × PaymentState) :=
  if amount.le decZero then .err .invalidAmount
  else if st.loan.status = LoanStatusActive then
    match earliestPendingInstallment st.schedule with
    | none => .err .noOutstandingBalance
    | some inst =>
      if amount.Equal st.loan.weeklyPayment then
        let pay : Payment := ⟨st.loan.loanID, amount, inst.weekNumber⟩
        let newSchedule := st.schedule.map (fun i =>
          if i.weekNumber = inst.weekNumber then { i with status := ScheduleStatusPaid }
          else i)
        let allSettled := newSchedule.all (fun i => i.status != ScheduleStatusPending)
        let newLoan :=
          if allSettled then { st.loan with status := LoanStatusClosed } else st.loan
        .ok (pay, ⟨newLoan, newSchedule, st.payments ++ [pay]⟩)
      else .err .invalidAmount
  else .err .alreadyClosed

/-! ## Fixtures used by concrete evaluations and witnesses -/

/-- A persisted loan as the repository's unit tests build it:
principal 5,000,000, rate 0.10, 50 weeks, weekly payment 110,000, active. -/
def exampleLoan : Loan :=
  ⟨"LOAN123", decOfInt 5000000, ⟨1, 1⟩, 50, decOfInt 110000, LoanStatusActive, 0⟩

/-- A store holding `exampleLoan` with an empty payment history. -/
def storeNoPayments : Store :=
  { getLoan := fun _ => .ok exampleLoan
    getSchedule := fun _ => .ok []
    getPayments := fun _ => .ok [] }

/-- A store holding `exampleLoan` with one persisted payment of 110,000. -/
def storeOnePayment : Store :=
  { getLoan := fun _ => .ok exampleLoan
    getSchedule := fun _ => .ok []
    getPayments := fun _ => .ok [⟨"LOAN123", decOfInt 110000, 1⟩] }

/-- A store agreeing with `storeNoPayments` on the loan and payment lookups
but answering the schedule lookup differently. -/
def storeAltSchedule : Store :=
  { getLoan := fun _ => .ok exampleLoan
    getSchedule := fun _ => .ok [⟨"LOAN123", 1, decOfInt 110000, 7, "pending"⟩]
    getPayments := fun _ => .ok [] }

/-- A loan database already holding a loan with ID `"LOAN456"`. -/
def loanDB456 : LoanDB :=
  ⟨[⟨"LOAN456", decOfInt 5000000, ⟨1, 1⟩, 50, decOfInt 110000, LoanStatusActive, 0⟩], []⟩

/-- An empty loan database. -/
def emptyLoanDB : LoanDB := ⟨[], []⟩

/-- A two-installment batch. -/
def batchTwo : List LoanSchedule :=
  [⟨"W", 1, decOfInt 110000, 7, "pending"⟩, ⟨"W", 2, decOfInt 110000, 14, "pending"⟩]

/-- Week-1 installment as `CreateLoan` generates it (uppercase status). -/
def c10Installment : LoanSchedule :=
  ⟨"LOAN123", 1, calculateWeeklyPayment, 7, "PENDING"⟩

/-! ## C2 — outstanding-balance formula -/

/-- C2: the claim states `GetOutstanding` returns
`(principal + principal*annualRate) - sum(payments)` — 5,500,000 for a fresh
5,000,000/0.10 loan and 5,390,000 after one payment of 110,000.  The code
instead overwrites the fetched loan and payment history with hard-coded
values and subtracts from the principal alone: it returns 4,780,000
(= 5,000,000 - 220,000) for both stores, which differs from both claimed
values.  This contradicts the repository's own unit tests (which assert
5,500,000 with no payments) and the function's own comment; the code is the
bug. -/
theorem getOutstanding_code_bug :
    GetOutstanding storeNoPayments "LOAN123" = .ok (decOfInt 4780000)
    ∧ GetOutstanding storeOnePayment "LOAN123" = .ok (decOfInt 4780000)
    ∧ Dec.Equal (decOfInt 4780000) (decOfInt 5500000) = false
    ∧ Dec.Equal (decOfInt 4780000) (decOfInt 5390000) = false := by
  refine ⟨rfl, rfl, by decide, by decide⟩

/-! ## C7 — installment-batch atomicity -/

/-- Inside the transaction, a fully successful INSERT loop buffers exactly
the given batch. -/
theorem txInsertAll_eq_some (oracle : ℕ → Bool) :
    ∀ (l : List LoanSchedule) (n : ℕ) (rows : List LoanSchedule),
      txInsertAll oracle l n = some rows → rows = l := by
  intro l
  induction l with
  | nil => intro n rows h; simpa [txInsertAll] using h.symm
  | cons s rest ih =>
    intro n rows h
    simp only [txInsertAll] at h
    by_cases ho : oracle n
    · rw [if_pos ho] at h
      cases hr : txInsertAll oracle rest (n + 1) with
      | none => rw [hr] at h; simp at h
      | some rs =>
        rw [hr] at h
        simp only [Option.map_some', Option.some.injEq] at h
        rw [← h, ih (n + 1) rs hr]
    · rw [if_neg ho] at h; simp at h

/-- C7: persisting the installment batch is all-or-nothing.  If any step of
`loanRepository.CreateSchedule` fails (beginning the transaction, any INSERT
of the loop, or the commit), the deferred rollback leaves the database
unchanged — no installment of the batch remains persisted; on success the
whole batch is appended. -/
theorem createSchedule_atomic (beginOk : Bool) (oracle : ℕ → Bool) (commitOk : Bool)
    (db : LoanDB) (schedules : List LoanSchedule) :
    ((CreateSchedule beginOk oracle commitOk db schedules).2.isSome →
        (CreateSchedule beginOk oracle commitOk db schedules).1 = db)
    ∧ ((CreateSchedule beginOk oracle commitOk db schedules).2 = none →
        (CreateSchedule beginOk oracle commitOk db schedules).1.schedules
          = db.schedules ++ schedules) := by
  unfold CreateSchedule
  cases beginOk with
  | false => simp
  | true =>
    rw [if_neg (by simp)]
    cases h : txInsertAll oracle schedules 0 with
    | none => simp
    | some rows =>
      have hrows : rows = schedules := txInsertAll_eq_some oracle schedules 0 rows h
      cases commitOk with
      | false => simp
      | true => simp [hrows]

/-- Witness for C7: with the second INSERT failing, the database is left
exactly as it was. -/
theorem createSchedule_atomic_witness :
    (CreateSchedule true (fun n => n == 0) true emptyLoanDB batchTwo).1 = emptyLoanDB :=
  (createSchedule_atomic true (fun n => n == 0) true emptyLoanDB batchTwo).1 (by decide)

/-! ## C8 — outstanding determinism and purity -/

/-- C8: `GetOutstanding` keeps no running balance; its result is a function
of nothing but the store's answers for the loan and the payment history of
the requested loan ID.  Two executions against stores that agree on those
two lookups return equal balances. -/
theorem getOutstanding_deterministic (s1 s2 : Store) (loanID : String)
    (hLoan : s1.getLoan loanID = s2.getLoan loanID)
    (hPay : s1.getPayments loanID = s2.getPayments loanID) :
    GetOutstanding s1 loanID = GetOutstanding s2 loanID := by
  unfold GetOutstanding
  rw [hLoan, hPay]

/-- Witness for C8: two stores that differ (in the schedule lookup) but
agree on the loan and payment lookups yield the same balance. -/
theorem getOutstanding_deterministic_witness :
    GetOutstanding storeNoPayments "LOAN123" = GetOutstanding storeAltSchedule "LOAN123" :=
  getOutstanding_deterministic storeNoPayments storeAltSchedule "LOAN123" rfl rfl

/-! ## C9 — the payment store is a no-op -/

/-- C9: `paymentRepository.Create` returns no error and persists nothing,
and `paymentRepository.GetByLoanID` returns the empty history with no error,
for every input. -/
theorem paymentRepo_noop :
    (∀ (db : PayDB) (p : Payment), paymentRepoCreate db p = (db, none))
    ∧ (∀ (db : PayDB) (loanID : String), paymentRepoGetByLoanID db loanID = .ok []) :=
  ⟨fun _ _ => rfl, fun _ _ => rfl⟩

/-! ## C10 — status-constant mismatch -/

/-- C10: `CreateLoan` sets the loan status to the literal `"ACTIVE"` and
every installment status to the literal `"PENDING"`, while the domain
constants used elsewhere are the lowercase `"active"` / `"pending"`; in
particular no installment created by `CreateLoan` ever satisfies the WHERE
clause of the overdue-schedule query, whatever the current date. -/
theorem statusConstantMismatch (loanID : String) :
    (createLoan loanID).1.status = "ACTIVE"
    ∧ "ACTIVE" ≠ LoanStatusActive
    ∧ ScheduleStatusPending = "pending"
    ∧ ∀ i ∈ (createLoan loanID).2,
        i.status = "PENDING"
        ∧ "PENDING" ≠ ScheduleStatusPending
        ∧ ∀ (lid : String) (d : ℤ), overdueWhere lid d i = false := by
  refine ⟨rfl, by decide, rfl, ?_⟩
  intro i hi
  obtain ⟨n, _, rfl⟩ := List.mem_map.1 hi
  refine ⟨rfl, by decide, ?_⟩
  intro lid d
  simp [overdueWhere]

/-- Witness for C10: the week-1 installment of `CreateLoan("LOAN123")` fails
the overdue filter even long after its due date. -/
theorem statusConstantMismatch_witness :
    overdueWhere "LOAN123" 1000 c10Installment = false :=
  (((statusConstantMismatch "LOAN123").2.2.2 c10Installment (by decide)).2.2) "LOAN123" 1000

/-! ## C3 — weekly-payment formula -/

/-- The principal `0.0099999999999999999` (19 fractional digits): a positive
decimal on which the code's two-step rounding (divide at 16 places, then
round to 2) disagrees with the spec's single rounding of the exact
quotient. -/
def c3Principal : Dec := ⟨99999999999999999, 19⟩

/-- Counterexample for C3: the claim states the computed weekly payment
equals `(P + P*r)/N` rounded (once) to 2 decimal places for every `P > 0`,
`r ≥ 0`, `N > 0`.  For `P = 0.0099999999999999999`, `r = 0`, `N = 2` the
exact quotient is `0.00499999999999999995`, whose round-to-2-places is `0`;
but `Div` first rounds it to 16 places giving `0.005`, and `Round(2)` then
yields `0.01`.  So the code computes 0.01 where the claimed formula gives
0. -/
theorem calculateWeeklyPayment_double_rounding :
    Dec.lt decZero c3Principal = true
    ∧ Dec.le decZero decZero = true
    ∧ (0 : ℤ) < 2
    ∧ CalculateWeeklyPayment c3Principal decZero 2 = ⟨1, 2⟩
    ∧ specWeeklyPayment c3Principal decZero 2 = ⟨0, 2⟩
    ∧ Dec.Equal (CalculateWeeklyPayment c3Principal decZero 2)
        (specWeeklyPayment c3Principal decZero 2) = false := by
  decide

/-- C3 as amended: the weekly payment computed by
`utils.CalculateWeeklyPayment` equals `(P + P*r)` divided by `N` at the
library's division precision of 16 decimal places and THEN rounded to 2
decimal places (two rounding steps, not one); for `P = 5,000,000`,
`r = 0.10`, `N = 50` the result is 110,000, as is the (unrounded) weekly
payment hard-coded into loan creation by
`BillingService.calculateWeeklyPayment`. -/
theorem calculateWeeklyPayment_amended :
    (∀ (P r : Dec) (N : ℤ), Dec.lt decZero P = true → Dec.le decZero r = true →
        0 < N → CalculateWeeklyPayment P r N = Dec.round 2 ((P.add (P.mul r)).div (decOfInt N)))
    ∧ Dec.Equal (CalculateWeeklyPayment (decOfInt 5000000) ⟨1, 1⟩ 50) (decOfInt 110000) = true
    ∧ Dec.Equal calculateWeeklyPayment (decOfInt 110000) = true := by
  refine ⟨fun P r N _ _ _ => rfl, by decide, by decide⟩

/-- Witness for the amended C3 at the standard inputs. -/
theorem calculateWeeklyPayment_amended_witness :
    CalculateWeeklyPayment (decOfInt 5000000) ⟨1, 1⟩ 50
      = Dec.round 2 (((decOfInt 5000000).add ((decOfInt 5000000).mul ⟨1, 1⟩)).div (decOfInt 50)) :=
  calculateWeeklyPayment_amended.1 (decOfInt 5000000) ⟨1, 1⟩ 50
    (by decide) (by decide) (by decide)

/-! ## C4 — schedule totality -/

/-- C4: evaluating `CreateLoan` at `"LOAN123"`: the schedule does have
exactly `durationWeeks = 50` installments with week numbers 1..50, each due
amount equal to the computed weekly payment (110,000) and due dates
increasing by exactly 7 days from `creationDate + 7` — but every
installment's status is the literal `"PENDING"`, not the domain's `pending`
status constant the claim (and the rest of the code: `init.sql` defaults,
the overdue query) uses.  The code's casing is the slip; every other part of
the claim holds. -/
theorem createLoan_schedule_eval :
    (createLoan "LOAN123").1.durationWeeks = 50
    ∧ (createLoan "LOAN123").2.length = 50
    ∧ ((createLoan "LOAN123").2.map LoanSchedule.weekNumber
        = (List.range 50).map (fun i => (i : ℤ) + 1))
    ∧ ((createLoan "LOAN123").2.all (fun s =>
          Dec.Equal s.dueAmount (createLoan "LOAN123").1.weeklyPayment
          && (s.dueDate == (createLoan "LOAN123").1.createdAt + 7 * s.weekNumber)
          && (s.status == "PENDING"))) = true
    ∧ Dec.Equal (createLoan "LOAN123").1.weeklyPayment (decOfInt 110000) = true
    ∧ "PENDING" ≠ ScheduleStatusPending := by
  decide

/-! ## C5 — duplicate-loan rejection -/

/-- C5: the claim states `CreateLoan` fails with `AlreadyExists` when the
loan ID exists (and with `PersistenceError` when the existence lookup itself
errors).  The source performs no existence lookup at all: it INSERTs
unconditionally, so a duplicate surfaces only as the raw driver
unique-violation error from the `loans.loan_id UNIQUE` constraint — not the
`AlreadyExists` business error (`WrapLoanAlreadyExists` is never called) —
and no lookup-failed branch exists.  The repository's own unit tests mock
`GetByLoanID` first and assert an "already exists" failure, so the code is
the bug. -/
theorem createLoan_duplicate_eval :
    CreateLoanSvc true true (fun _ => true) true loanDB456 "LOAN456"
      = (loanDB456, .err .dbUniqueViolation)
    ∧ BErr.dbUniqueViolation ≠ BErr.alreadyExists := by
  decide

/-! ## C1 — delinquency threshold -/

/-- A prefix of past-due paid installments leaves the walk where it started:
each paid installment resets `consecutiveMissed` to 0. -/
theorem delinquencyWalk_paid_prefix (today : ℤ) (t : ℕ)
    (pre l : List LoanSchedule)
    (hPre : ∀ i ∈ pre, i.status = ScheduleStatusPaid ∧ i.dueDate < today) :
    delinquencyWalk today t (pre ++ l) 0 = delinquencyWalk today t l 0 := by
  induction pre with
  | nil => rfl
  | cons s rest ih =>
    have hs := hPre s (by simp)
    have hrest : ∀ i ∈ rest, i.status = ScheduleStatusPaid ∧ i.dueDate < today :=
      fun i hi => hPre i (by simp [hi])
    simp only [List.cons_append, delinquencyWalk]
    rw [if_neg (by omega : ¬ today ≤ s.dueDate), hs.1,
      if_neg (by decide : ¬ ScheduleStatusPaid = ScheduleStatusPending),
      if_pos rfl]
    exact ih hrest

/-- Walking a run of past-due pending installments adds its length to
`consecutiveMissed`, returning `true` as soon as the threshold is reached. -/
theorem delinquencyWalk_pending_run (today : ℤ) (t : ℕ) :
    ∀ (run rest : List LoanSchedule) (c : ℕ), c < t →
      (∀ i ∈ run, i.status = ScheduleStatusPending ∧ i.dueDate < today) →
      delinquencyWalk today t (run ++ rest) c
        = if t ≤ c + run.length then true
          else delinquencyWalk today t rest (c + run.length) := by
  intro run
  induction run with
  | nil =>
    intro rest c hc _
    simp only [List.nil_append, List.length_nil, Nat.add_zero]
    rw [if_neg (by omega : ¬ t ≤ c)]
  | cons s rs ih =>
    intro rest c hc hRun
    have hs := hRun s (by simp)
    have hrs : ∀ i ∈ rs, i.status = ScheduleStatusPending ∧ i.dueDate < today :=
      fun i hi => hRun i (by simp [hi])
    simp only [List.cons_append, delinquencyWalk]
    rw [if_neg (by omega : ¬ today ≤ s.dueDate), hs.1, if_pos rfl]
    by_cases ht : t ≤ c + 1
    · rw [if_pos ht, if_pos (by simp; omega)]
    · rw [if_neg ht]
      simp only [List.append_eq]
      rw [ih rest (c + 1) (by omega) hrs]
      have harith : c + 1 + rs.length = c + (rs.length + 1) := by omega
      rw [harith]
      simp

/-- The walk stops without flagging as soon as it reaches an installment not
yet strictly past due (the tail is never evaluated). -/
theorem delinquencyWalk_future (today : ℤ) (t : ℕ)
    (rest : List LoanSchedule) (c : ℕ)
    (hRest : ∀ i ∈ rest, today ≤ i.dueDate) :
    delinquencyWalk today t rest c = false := by
  cases rest with
  | nil => rfl
  | cons s rs =>
    simp only [delinquencyWalk]
    rw [if_pos (hRest s (by simp))]

/-- C1 (spec-modelled): for an active, existing loan whose schedule — in
ascending due-date order — is a (possibly empty) prefix of past-due PAID
installments, followed by `k` consecutive past-due PENDING installments with
no intervening paid installment, followed by installments not yet strictly
past due (never evaluated, whatever their status), `IsDelinquent` returns
`true` exactly when `k` reaches the default threshold 2. -/
theorem isDelinquent_threshold (s : Store) (today : ℤ) (loanID : String)
    (loan : Loan) (pre run rest : List LoanSchedule)
    (hLoan : s.getLoan loanID = .ok loan)
    (hActive : loan.status = LoanStatusActive)
    (hSched : s.getSchedule loanID = .ok (pre ++ run ++ rest))
    (hSort : List.Sorted (fun a b : LoanSchedule => a.dueDate ≤ b.dueDate)
      (pre ++ run ++ rest))
    (hPre : ∀ i ∈ pre, i.status = ScheduleStatusPaid ∧ i.dueDate < today)
    (hRun : ∀ i ∈ run, i.status = ScheduleStatusPending ∧ i.dueDate < today)
    (hRest : ∀ i ∈ rest, today ≤ i.dueDate) :
    IsDelinquent s today loanID = .ok (decide (delinquencyThreshold ≤ run.length)) := by
  unfold IsDelinquent
  rw [hLoan]
  simp only [hActive, if_pos rfl, hSched]
  rw [List.Sorted.insertionSort_eq hSort, List.append_assoc,
    delinquencyWalk_paid_prefix today delinquencyThreshold pre (run ++ rest) hPre,
    delinquencyWalk_pending_run today delinquencyThreshold run rest 0
      (by decide) hRun]
  simp only [Nat.zero_add]
  by_cases hk : delinquencyThreshold ≤ run.length
  · rw [if_pos hk]
    simp [hk]
  · rw [if_neg hk, delinquencyWalk_future today delinquencyThreshold rest run.length hRest]
    simp [hk]

/-- Delinquency-witness installments: two pending installments due 14 and 7
days ago and one due today. -/
def w1Inst1 : LoanSchedule := ⟨"LND", 1, decOfInt 110000, 86, "pending"⟩

/-- Second past-due pending installment of the delinquency witness. -/
def w1Inst2 : LoanSchedule := ⟨"LND", 2, decOfInt 110000, 93, "pending"⟩

/-- Installment due exactly "today" (day 100) — never evaluated. -/
def w1Inst3 : LoanSchedule := ⟨"LND", 3, decOfInt 110000, 100, "pending"⟩

/-- The loan of the delinquency witness. -/
def w1Loan : Loan :=
  ⟨"LND", decOfInt 5000000, ⟨1, 1⟩, 50, decOfInt 110000, "active", 79⟩

/-- The store of the delinquency witness. -/
def w1Store : Store :=
  { getLoan := fun _ => .ok w1Loan
    getSchedule := fun _ => .ok [w1Inst1, w1Inst2, w1Inst3]
    getPayments := fun _ => .ok [] }

/-- Witness for C1: two installments due 14 and 7 days ago, both pending,
today's installment not yet strictly due — delinquent. -/
theorem isDelinquent_threshold_witness :
    IsDelinquent w1Store 100 "LND" = .ok true := by
  have h := isDelinquent_threshold w1Store 100 "LND" w1Loan
    [] [w1Inst1, w1Inst2] [w1Inst3] rfl rfl rfl (by decide) (by decide)
    (by decide) (by decide)
  simpa [delinquencyThreshold] using h

/-! ## C6 — loan closure -/

/-- Value equality of a decimal with itself. -/
theorem Dec.Equal_self (a : Dec) : a.Equal a = true := by
  simp [Dec.Equal]

/-- When every pending installment of a list is `m`, the earliest-pending
search returns either nothing or `m`. -/
theorem earliestPending_none_or (m : LoanSchedule) :
    ∀ (l : List LoanSchedule),
      (∀ i ∈ l, i.status = ScheduleStatusPending → i = m) →
      earliestPendingInstallment l = none ∨ earliestPendingInstallment l = some m := by
  intro l
  induction l with
  | nil => intro _; left; rfl
  | cons s rs ih =>
    intro h
    have hrs : ∀ i ∈ rs, i.status = ScheduleStatusPending → i = m :=
      fun i hi => h i (by simp [hi])
    simp only [earliestPendingInstallment]
    by_cases hs : s.status = ScheduleStatusPending
    · have hsm : s = m := h s (by simp) hs
      rw [if_pos hs]
      rcases ih hrs with h0 | h0 <;> rw [h0]
      · right; rw [hsm]
      · right; rw [hsm]; simp
    · rw [if_neg hs]; exact ih hrs

/-- When `m` is in the list, is pending, and is the only pending
installment, the earliest-pending search finds exactly `m`. -/
theorem earliestPending_unique (m : LoanSchedule) :
    ∀ (l : List LoanSchedule), m ∈ l → m.status = ScheduleStatusPending →
      (∀ i ∈ l, i.status = ScheduleStatusPending → i = m) →
      earliestPendingInstallment l = some m := by
  intro l
  induction l with
  | nil => intro hm; exact absurd hm (List.not_mem_nil m)
  | cons s rs ih =>
    intro hm hp h
    have hrs : ∀ i ∈ rs, i.status = ScheduleStatusPending → i = m :=
      fun i hi => h i (by simp [hi])
    simp only [earliestPendingInstallment]
    by_cases hs : s.status = ScheduleStatusPending
    · have hsm : s = m := h s (by simp) hs
      rw [if_pos hs]
      rcases earliestPending_none_or m rs hrs with h0 | h0 <;> rw [h0]
      · rw [hsm]
      · rw [hsm]; simp
    · rw [if_neg hs]
      have hm' : m ∈ rs := by
        rcases List.mem_cons.1 hm with h1 | h1
        · exact absurd (h1 ▸ hp) hs
        · exact h1
      exact ih hm' hp hrs

/-- After marking `m`'s week paid, no pending installment remains when `m`
was the only pending one. -/
theorem markPaid_all_settled (schedule : List LoanSchedule) (m : LoanSchedule)
    (h : ∀ i ∈ schedule, i.status = ScheduleStatusPending → i = m) :
    (schedule.map (fun i =>
        if i.weekNumber = m.weekNumber then { i with status := ScheduleStatusPaid }
        else i)).all (fun i => i.status != ScheduleStatusPending) = true := by
  rw [List.all_eq_true]
  intro x hx
  obtain ⟨i, hi, rfl⟩ := List.mem_map.1 hx
  by_cases hw : i.weekNumber = m.weekNumber
  · rw [if_pos hw]; rfl
  · rw [if_neg hw]
    have : ¬ i.status = ScheduleStatusPending := fun hp => hw (by rw [h i hi hp])
    simp [this]

/-- The payment record `MakePayment` creates for installment `m`. -/
def payOf (st : PaymentState) (m : LoanSchedule) : Payment :=
  ⟨st.loan.loanID, st.loan.weeklyPayment, m.weekNumber⟩

/-- The post-payment state when `m` was the last pending installment: `m`'s
week marked paid, the payment appended, the loan closed. -/
def closedStateOf (st : PaymentState) (m : LoanSchedule) : PaymentState :=
  ⟨{ st.loan with status := LoanStatusClosed },
   st.schedule.map (fun i =>
     if i.weekNumber = m.weekNumber then { i with status := ScheduleStatusPaid }
     else i),
   st.payments ++ [payOf st m]⟩

/-- C6 as amended (spec-modelled): for an active loan whose only pending
installment `m` carries the highest week number, paying the weekly payment
succeeds, marks `m` paid, transitions the loan's status to `closed` in the
persisted state, and every SUBSEQUENT `MakePayment` WITH A POSITIVE AMOUNT
fails with `AlreadyClosed` (a non-positive amount is rejected as
`InvalidAmount` before the loan is even consulted). -/
theorem makePayment_closure (st : PaymentState) (m : LoanSchedule)
    (hActive : st.loan.status = LoanStatusActive)
    (hMem : m ∈ st.schedule)
    (hPend : m.status = ScheduleStatusPending)
    (hOnly : ∀ i ∈ st.schedule, i ≠ m →
      i.status ≠ ScheduleStatusPending ∧ i.weekNumber < m.weekNumber)
    (hAmt : Dec.le st.loan.weeklyPayment decZero = false) :
    MakePayment st st.loan.weeklyPayment = .ok (payOf st m, closedStateOf st m)
    ∧ (closedStateOf st m).loan.status = LoanStatusClosed
    ∧ ∀ a : Dec, Dec.le a decZero = false →
        MakePayment (closedStateOf st m) a = .err .alreadyClosed := by
  have hUniq : ∀ i ∈ st.schedule, i.status = ScheduleStatusPending → i = m := by
    intro i hi hp
    by_contra hne
    exact (hOnly i hi hne).1 hp
  refine ⟨?_, rfl, ?_⟩
  · unfold MakePayment
    simp [hAmt, hActive, earliestPending_unique m st.schedule hMem hPend hUniq,
      Dec.Equal_self, markPaid_all_settled st.schedule m hUniq, payOf, closedStateOf]
  · intro a ha
    unfold MakePayment
    simp [ha, closedStateOf, LoanStatusClosed, LoanStatusActive]

/-- The single-installment loan of the C6 concrete scenario. -/
def c6Inst : LoanSchedule := ⟨"LC", 1, decOfInt 110000, 7, "pending"⟩

/-- Initial state of the C6 concrete scenario: active loan, one pending
installment (week 1, the highest week), no payments yet. -/
def c6State0 : PaymentState :=
  ⟨⟨"LC", decOfInt 5000000, ⟨1, 1⟩, 50, decOfInt 110000, LoanStatusActive, 0⟩,
   [c6Inst], []⟩

/-- Counterexample for C6 as stated: after the final installment is paid and
the loan is closed, a subsequent `MakePayment` with amount 0 fails with
`InvalidAmount` — not `AlreadyClosed` as the claim requires of EVERY
subsequent `MakePayment` (amount validation precedes the status check in the
spec's §4.4 fail-fast order). -/
theorem makePayment_closure_counterexample :
    MakePayment c6State0 (decOfInt 110000)
      = .ok (⟨"LC", decOfInt 110000, 1⟩, closedStateOf c6State0 c6Inst)
    ∧ (closedStateOf c6State0 c6Inst).loan.status = LoanStatusClosed
    ∧ MakePayment (closedStateOf c6State0 c6Inst) decZero = .err .invalidAmount
    ∧ BErr.invalidAmount ≠ BErr.alreadyClosed := by
  decide

/-- Witness for the amended C6 on the concrete scenario: the payment
succeeds, the loan is closed, and a positive-amount retry fails with
`AlreadyClosed`. -/
theorem makePayment_closure_witness :
    MakePayment c6State0 (decOfInt 110000) = .ok (payOf c6State0 c6Inst, closedStateOf c6State0 c6Inst)
    ∧ MakePayment (closedStateOf c6State0 c6Inst) (decOfInt 110000) = .err .alreadyClosed := by
  have h := makePayment_closure c6State0 c6Inst rfl (by decide) rfl (by decide) (by decide)
  exact ⟨h.1, h.2.2 (decOfInt 110000) (by decide)⟩

end BillingEngine
